import Mathlib

/-! ## Definitions: data model, handlers, fixtures -/

/-- JSON values as handled by the server (parsed message payloads). -/
inductive JVal where
  | str (s : String)
  | num (n : Int)
  | bool (b : Bool)
  | arr (xs : List JVal)
  | obj (fields : List (String × JVal))

/-- Dict lookup (`d.get(k)`): first binding wins. -/
def alookup (k : String) : List (String × α) → Option α
  | [] => none
  | (k', v) :: rest => if k' = k then some v else alookup k rest

/-- Dict assignment (`d[k] = v`): replaces the binding in place if the key
is present (Python dicts keep the original insertion position), otherwise
appends the new binding. -/
def aset (k : String) (v : α) : List (String × α) → List (String × α)
  | [] => [(k, v)]
  | (k', v') :: rest => if k' = k then (k, v) :: rest else (k', v') :: aset k v rest

/-- Dict removal (`d.pop(k, None)`): drops the binding for `k`. -/
def aremove (k : String) : List (String × α) → List (String × α)
  | [] => []
  | (k', v') :: rest => if k' = k then rest else (k', v') :: aremove k rest

/-- Python dict-literal spread `\x7b**base, **ext\x7d`: every binding of `ext`
is assigned into `base` in order. -/
def dictMerge (base ext : List (String × JVal)) : List (String × JVal) :=
  ext.foldl (fun d p => aset p.1 p.2 d) base

/-- Items of the per-call media queue (`audio_queue`): audio byte chunks,
video frames, and the end-of-stream sentinel `None` pushed by cleanup. -/
inductive QItem where
  | audioChunk (bytes : List Nat)
  | frameItem (data : JVal)
  | sentinel

/-- `asyncio.Queue(maxsize=500)` capacity of the media queue. -/
def QUEUE_MAXSIZE : Nat := 500

/-- `queue.put(item)`: completes with the extended queue when there is
room; `none` means the producer coroutine blocks (the put suspends until
a consumer frees space). Nothing is ever dropped or rejected. -/
def queuePut (q : List QItem) (x : QItem) : Option (List QItem) :=
  if q.length < QUEUE_MAXSIZE then some (q ++ [x]) else none

/-- `queue.get()`: takes the oldest item; `none` means the consumer
blocks on an empty queue. -/
def queueGet : List QItem → Option (QItem × List QItem)
  | [] => none
  | x :: rest => some (x, rest)

/-- A message sent on a websocket channel (`send_json` / `send_str`),
with the target channel id and the JSON payload. -/
structure Msg where
  target : Nat
  payload : JVal

/-- One entry of `active_calls` (the per-call session dict created by
`call_initiated` in `handle_signal`). -/
structure CallSession where
  caller_ws : Nat
  dispatcher_ws : Option Nat
  dashboard_ws : Option Nat
  audio_queue : List QItem
  gemini_task : Option Nat
  location : JVal
  started_at : Nat
  last_vitals : Option (List (String × JVal))

/-- The server's module-level mutable state: `active_calls`,
`pending_vitals`, `dispatcher_connections`, plus bookkeeping for which
channel ids are closed, which task ids have finished, the next fresh
task id, and the current clock (`time.time()`). -/
structure ServerState where
  active_calls : List (String × CallSession)
  pending_vitals : List (String × List (String × JVal))
  dispatcher_connections : List Nat
  closed_channels : List Nat
  done_tasks : List Nat
  next_task : Nat
  now : Nat

/-- `not ws.closed` for a channel id. -/
def chanOpen (s : ServerState) (w : Nat) : Bool :=
  !(s.closed_channels.contains w)

/-- Marks a websocket as closed (its receive loop has ended). -/
def closeChannel (s : ServerState) (ws : Nat) : ServerState :=
  { s with closed_channels := ws :: s.closed_channels }

/-- `data.get(k)` on a parsed JSON value. -/
def jGet (v : JVal) (k : String) : Option JVal :=
  match v with
  | JVal.obj fields => alookup k fields
  | _ => none

/-- The `type` discriminator of a message, when it is a string. -/
def jType (v : JVal) : Option String :=
  match jGet v "type" with
  | some (JVal.str s) => some s
  | _ => none

/-- A string-valued field of a message (`data.get("call_id")`). -/
def jStr (v : JVal) (k : String) : Option String :=
  match jGet v k with
  | some (JVal.str s) => some s
  | _ => none

/-- A `call_initiated` message as sent by the caller. -/
def mkInit (loc : JVal) : JVal :=
  JVal.obj [("type", JVal.str "call_initiated"), ("location", loc)]

/-- A `dispatcher_joined` message as sent by a dashboard. -/
def mkJoin (cid : String) : JVal :=
  JVal.obj [("type", JVal.str "dispatcher_joined"), ("call_id", JVal.str cid)]

/-- The `incoming_call` broadcast sent to every connected dashboard. -/
def incomingCallPayload (cid : String) (loc : JVal) : JVal :=
  JVal.obj [("type", JVal.str "incoming_call"), ("call_id", JVal.str cid), ("location", loc)]

/-- The vitals message forwarded to a dashboard: the reading spread over
the base dict with the `type` and `call_id` annotations. -/
def vitalsPayload (cid : String) (vitals : List (String × JVal)) : JVal :=
  JVal.obj (dictMerge [("type", JVal.str "vitals"), ("call_id", JVal.str cid)] vitals)

/-- The `dispatcher_ready` notification sent to the caller on join. -/
def dispatcherReadyPayload (cid : String) : JVal :=
  JVal.obj [("type", JVal.str "dispatcher_ready"), ("call_id", JVal.str cid)]

/-- The `call_ended` notification sent by cleanup. -/
def callEndedPayload (cid reason : String) : JVal :=
  JVal.obj [("type", JVal.str "call_ended"), ("call_id", JVal.str cid), ("reason", JVal.str reason)]

/-- A `triage_update` message published to the dashboard. -/
def triageUpdatePayload (cid : String) (report : JVal) : JVal :=
  JVal.obj [("type", JVal.str "triage_update"), ("call_id", JVal.str cid), ("report", report)]

/-- The degraded placeholder report published when the Gemini call raises
a non-cancellation error of class `e`. -/
def errorReport (e : String) : JVal :=
  JVal.obj [
    ("situation_summary", JVal.str ("AI analysis error — retrying... (" ++ e ++ ")")),
    ("severity", JVal.num 0),
    ("caller_emotional_state", JVal.str "unknown"),
    ("recommended_response_type", JVal.str "unknown"),
    ("can_speak", JVal.bool true),
    ("detected_keywords", JVal.arr [])]

/-- The suspension-relevant steps cleanup performs, recorded so that the
shape of its wait for the triage task is provable: `awaitTask` is the
plain unbounded `await task`, `awaitTaskWithTimeout` would be a
timeout-bounded wait, `logWarning` a logged abandonment warning. -/
inductive CleanupAction where
  | popSession
  | putSentinel
  | cancelTask
  | awaitTask
  | awaitTaskWithTimeout (t : Nat)
  | logWarning
deriving Repr, DecidableEq

structure CleanupResult where
  state : ServerState
  msgs : List Msg
  actions : List CleanupAction

/-- `cleanup_call(call_id, reason="ended")`: pops the session (no-op when
absent); if a Gemini task is running, pushes the sentinel, cancels the
task and awaits it; then notifies the dashboard channel and the caller
channel, each only if open. -/
def cleanup_call (call_id reason : String) (s : ServerState) : CleanupResult :=
  match alookup call_id s.active_calls with
  | none => ⟨s, [], []⟩
  | some call =>
    let s₁ : ServerState := { s with active_calls := aremove call_id s.active_calls }
    let running : Bool := match call.gemini_task with
      | some t => !(s.done_tasks.contains t)
      | none => false
    let stopActs := if running then
        [CleanupAction.putSentinel, CleanupAction.cancelTask, CleanupAction.awaitTask]
      else []
    let dashMsgs := match call.dashboard_ws with
      | some w => if chanOpen s w then [Msg.mk w (callEndedPayload call_id reason)] else []
      | none => []
    let callerMsgs := if chanOpen s call.caller_ws
      then [Msg.mk call.caller_ws (callEndedPayload call_id reason)] else []
    ⟨s₁, dashMsgs ++ callerMsgs, CleanupAction.popSession :: stopActs⟩

/-- One iteration of `handle_signal`'s receive loop on a parsed text
message `data`, for a connection opened with query `call_id`/`role`. -/
def handle_signal_msg (call_id role : String) (ws : Nat) (s : ServerState) (data : JVal) :
    ServerState × List Msg :=
  if jType data = some "call_initiated" then
    if (alookup call_id s.active_calls).isSome then (s, [])
    else
      let loc := (jGet data "location").getD (JVal.obj [])
      let buffered := alookup call_id s.pending_vitals
      let lastV : Option (List (String × JVal)) :=
        match buffered with
        | some v => if v.isEmpty then none else some v
        | none => none
      let sess : CallSession := {
        caller_ws := ws, dispatcher_ws := none, dashboard_ws := none,
        audio_queue := [], gemini_task := none, location := loc,
        started_at := s.now, last_vitals := lastV }
      let s' := { s with
        active_calls := aset call_id sess s.active_calls,
        pending_vitals := aremove call_id s.pending_vitals }
      let msgs := (s.dispatcher_connections.filter (fun w => chanOpen s w)).map
        (fun w => Msg.mk w (incomingCallPayload call_id loc))
      (s', msgs)
  else if jType data = some "call_ended" then
    let r := cleanup_call call_id "ended" s
    (r.state, r.msgs)
  else
    match alookup call_id s.active_calls with
    | none => (s, [])
    | some call =>
      let target : Option Nat :=
        if role = "caller" then call.dashboard_ws else some call.caller_ws
      match target with
      | some t => if chanOpen s t then (s, [Msg.mk t data]) else (s, [])
      | none => (s, [])

/-- The end of `handle_signal`'s receive loop: the websocket has closed;
if this was the caller and the call is still active, treat as an
implicit `call_ended`. -/
def handle_signal_close (call_id role : String) (ws : Nat) (s : ServerState) :
    ServerState × List Msg :=
  let s₁ := closeChannel s ws
  if role = "caller" ∧ (alookup call_id s₁.active_calls).isSome then
    let r := cleanup_call call_id "ended" s₁
    (r.state, r.msgs)
  else (s₁, [])

/-- One iteration of `handle_vitals`'s receive loop on a parsed vitals
reading: buffer in `pending_vitals` when the call is not registered yet,
otherwise cache in `last_vitals` and forward to the dashboard if
connected and open. -/
def handle_vitals_msg (call_id : String) (s : ServerState)
    (vitals : List (String × JVal)) : ServerState × List Msg :=
  match alookup call_id s.active_calls with
  | none => ({ s with pending_vitals := aset call_id vitals s.pending_vitals }, [])
  | some call =>
    let call' := { call with last_vitals := some vitals }
    let s' := { s with active_calls := aset call_id call' s.active_calls }
    match call.dashboard_ws with
    | some w =>
      if chanOpen s w then (s', [Msg.mk w (vitalsPayload call_id vitals)]) else (s', [])
    | none => (s', [])

/-- One iteration of `handle_dashboard`'s receive loop on a parsed text
message from dashboard channel `ws`. On `dispatcher_joined`: rebinds
`dashboard_ws` to `ws`, starts the Gemini task only when none exists,
replays cached vitals to `ws`, and notifies the caller. -/
def handle_dashboard_msg (ws : Nat) (s : ServerState) (data : JVal) :
    ServerState × List Msg :=
  let cid? := jStr data "call_id"
  if jType data = some "dispatcher_joined" then
    match cid? with
    | none => (s, [])
    | some cid =>
      match alookup cid s.active_calls with
      | none => (s, [])
      | some call =>
        let call₁ := { call with dashboard_ws := some ws }
        let upd : CallSession × Nat :=
          if call₁.gemini_task = none
          then ({ call₁ with gemini_task := some s.next_task }, s.next_task + 1)
          else (call₁, s.next_task)
        let s' := { s with active_calls := aset cid upd.1 s.active_calls,
                           next_task := upd.2 }
        let vitalsMsgs := match call.last_vitals with
          | some v => if v.isEmpty then [] else [Msg.mk ws (vitalsPayload cid v)]
          | none => []
        let readyMsgs := if chanOpen s call.caller_ws
          then [Msg.mk call.caller_ws (dispatcherReadyPayload cid)] else []
        (s', vitalsMsgs ++ readyMsgs)
  else if jType data = some "call_ended" then
    match cid? with
    | none => (s, [])
    | some cid =>
      let r := cleanup_call cid "ended" s
      (r.state, r.msgs)
  else
    match cid? with
    | none => (s, [])
    | some cid =>
      match alookup cid s.active_calls with
      | none => (s, [])
      | some call =>
        if chanOpen s call.caller_ws then (s, [Msg.mk call.caller_ws data]) else (s, [])

/-- An inbound frame on the media websocket: a binary audio chunk, or a
parsed text message. -/
inductive MediaWireMsg where
  | binaryChunk (bytes : List Nat)
  | textMsg (data : JVal)

/-- Result of one iteration of `handle_audio`'s receive loop: the
handler continues with a new state, blocks on a full queue inside
`queue.put`, or raises out of the loop (`KeyError` on a frame message
with no `data` field, `AttributeError` on non-object JSON). -/
inductive MediaStep where
  | ok (s : ServerState)
  | blocked
  | errored

/-- One iteration of `handle_audio`'s receive loop for call `call_id`:
binary payloads are enqueued as audio, text messages of type `frame` are
enqueued as frames, anything else is ignored; unknown calls are
skipped. -/
def handle_audio_msg (call_id : String) (s : ServerState) (m : MediaWireMsg) : MediaStep :=
  match alookup call_id s.active_calls with
  | none => MediaStep.ok s
  | some call =>
    let putItem : QItem → MediaStep := fun item =>
      match queuePut call.audio_queue item with
      | some q' => MediaStep.ok { s with
          active_calls := aset call_id { call with audio_queue := q' } s.active_calls }
      | none => MediaStep.blocked
    match m with
    | MediaWireMsg.binaryChunk bytes => putItem (QItem.audioChunk bytes)
    | MediaWireMsg.textMsg data =>
      match data with
      | JVal.obj fields =>
        match alookup "type" fields with
        | some (JVal.str "frame") =>
          match alookup "data" fields with
          | some d => putItem (QItem.frameItem d)
          | none => MediaStep.errored
        | _ => MediaStep.ok s
      | _ => MediaStep.errored

/-- Outcome of one Gemini `generate_content` call together with the JSON
extraction applied to its response text. Modelled from the spec as far
as the external inference collaborator goes (spec excludes the AI
engine itself): `parsedReport` abstracts a response whose text contains
a JSON object, `noJson` one without, `failure e` a raised
non-cancellation exception of class name `e`, `cancelled` a raised
`asyncio.CancelledError`. -/
inductive GeminiOutcome where
  | parsedReport (report : List (String × JVal))
  | noJson
  | failure (errClass : String)
  | cancelled

/-- What one analysis round of `gemini_session_task` does after the
windowed audio collection produced a non-empty buffer. -/
structure RoundResult where
  msgs : List Msg
  summary : JVal
  continues : Bool
  reraised : Bool

/-- The `dashboard_ws_getter` lambda passed to the task:
`active_calls.get(cid, \x7b\x7d).get("dashboard_ws")`. -/
def dashboard_ws_getter (s : ServerState) (cid : String) : Option Nat :=
  match alookup cid s.active_calls with
  | some call => call.dashboard_ws
  | none => none

/-- One analysis round of `gemini_session_task` (the body after the
collection window, lines building parts through the exception
handlers): on a parsed report, store its `situation_summary` and publish
a `triage_update` to the dashboard channel if connected and open; on a
response without JSON, only log; on a non-cancellation error, publish
the degraded `errorReport` placeholder and continue; on cancellation,
re-raise so the task terminates. -/
def gemini_round (call_id : String) (s : ServerState) (previous_summary : JVal)
    (outcome : GeminiOutcome) : RoundResult :=
  let publish : JVal → List Msg := fun payload =>
    match dashboard_ws_getter s call_id with
    | some w => if chanOpen s w then [Msg.mk w payload] else []
    | none => []
  match outcome with
  | GeminiOutcome.parsedReport report =>
    let newSummary := (alookup "situation_summary" report).getD previous_summary
    ⟨publish (triageUpdatePayload call_id (JVal.obj report)), newSummary, true, false⟩
  | GeminiOutcome.noJson => ⟨[], previous_summary, true, false⟩
  | GeminiOutcome.failure e =>
    ⟨publish (triageUpdatePayload call_id (errorReport e)), previous_summary, true, false⟩
  | GeminiOutcome.cancelled => ⟨[], previous_summary, false, true⟩

/-- The externally-visible events the server reacts to, one per
suspension of a handler loop. -/
inductive Event where
  | dashboardConnect (ws : Nat)
  | dashboardDisconnect (ws : Nat)
  | signalMsg (call_id role : String) (ws : Nat) (data : JVal)
  | signalClosed (call_id role : String) (ws : Nat)
  | vitalsMsg (call_id : String) (vitals : List (String × JVal))
  | dashboardMsg (ws : Nat) (data : JVal)

/-- Dispatch of one event to its handler. -/
def step (s : ServerState) : Event → ServerState × List Msg
  | Event.dashboardConnect ws =>
    ({ s with dispatcher_connections :=
        if s.dispatcher_connections.contains ws then s.dispatcher_connections
        else s.dispatcher_connections ++ [ws] }, [])
  | Event.dashboardDisconnect ws =>
    ({ closeChannel s ws with
        dispatcher_connections := s.dispatcher_connections.filter (fun w => w != ws) }, [])
  | Event.signalMsg cid role ws data => handle_signal_msg cid role ws s data
  | Event.signalClosed cid role ws => handle_signal_close cid role ws s
  | Event.vitalsMsg cid v => handle_vitals_msg cid s v
  | Event.dashboardMsg ws data => handle_dashboard_msg ws s data

/-- Run a sequence of events, collecting every message sent. -/
def run (s : ServerState) : List Event → ServerState × List Msg
  | [] => (s, [])
  | e :: rest =>
    let r := step s e
    let r' := run r.1 rest
    (r'.1, r.2 ++ r'.2)

/-- The state at server start: no calls, no buffered vitals, no
dashboards, all channels open. -/
def initialState : ServerState :=
  ⟨[], [], [], [], [], 0, 0⟩

def locEx : JVal := JVal.obj [("lat", JVal.num 35), ("lng", JVal.num (-79))]

def sessEx : CallSession :=
  ⟨1, none, none, [], none, locEx, 0, none⟩

def stateEx : ServerState := ⟨[("c1", sessEx)], [], [], [], [], 0, 0⟩

def sessBoundEx : CallSession :=
  ⟨1, none, some 2, [], some 0, locEx, 0, none⟩

def stateBoundEx : ServerState := ⟨[("c1", sessBoundEx)], [], [2, 3], [], [], 1, 0⟩

def sessFullEx : CallSession :=
  ⟨1, none, none, List.replicate 500 QItem.sentinel, none, locEx, 0, none⟩

def stateFullEx : ServerState := ⟨[("c1", sessFullEx)], [], [], [], [], 0, 0⟩

/-- Number of messages in `msgs` to channel `target` whose payload has
the given `type` tag. -/
def countMsgs (msgs : List Msg) (target : Nat) (tag : String) : Nat :=
  (msgs.filter (fun m => m.target == target && jType m.payload == some tag)).length

/-- The C6 round-trip events: a vitals reading arrives before the call is
registered, then the caller initiates, then a dispatcher joins. -/
def eventsC6 (c : String) (v : List (String × JVal)) (loc : JVal) : List Event :=
  [Event.dashboardConnect 2, Event.vitalsMsg c v,
   Event.signalMsg c "caller" 1 (mkInit loc), Event.dashboardMsg 2 (mkJoin c)]

def vitalsEx : List (String × JVal) := [("hr", JVal.num 118), ("breathing", JVal.num 22)]

/-- No session in the registry has its `dispatcher_ws` field set. -/
def dispatcherUnbound (s : ServerState) : Prop :=
  ∀ p ∈ s.active_calls, p.2.dispatcher_ws = none

/-! ## Library lemmas for the dict and payload operations -/

@[simp] theorem alookup_nil (k : String) : alookup k ([] : List (String × α)) = none := rfl

@[simp] theorem alookup_cons (k k' : String) (v : α) (rest : List (String × α)) :
    alookup k ((k', v) :: rest) = if k' = k then some v else alookup k rest := rfl

@[simp] theorem aset_nil (k : String) (v : α) : aset k v ([] : List (String × α)) = [(k, v)] := rfl

@[simp] theorem aset_cons (k k' : String) (v v' : α) (rest : List (String × α)) :
    aset k v ((k', v') :: rest) =
      if k' = k then (k, v) :: rest else (k', v') :: aset k v rest := rfl

@[simp] theorem aremove_nil (k : String) : aremove k ([] : List (String × α)) = [] := rfl

@[simp] theorem aremove_cons (k k' : String) (v' : α) (rest : List (String × α)) :
    aremove k ((k', v') :: rest) =
      if k' = k then rest else (k', v') :: aremove k rest := rfl

theorem alookup_aset_self (k : String) (v : α) (d : List (String × α)) :
    alookup k (aset k v d) = some v := by
  induction d with
  | nil => simp
  | cons p rest ih =>
    obtain ⟨k', v'⟩ := p
    by_cases h : k' = k <;> simp [h, ih]

theorem alookup_aset_ne (k k' : String) (hne : k' ≠ k) (v : α) (d : List (String × α)) :
    alookup k (aset k' v d) = alookup k d := by
  induction d with
  | nil => simp [hne]
  | cons p rest ih =>
    obtain ⟨k'', v''⟩ := p
    by_cases h : k'' = k'
    · subst h
      simp [hne]
    · simp [h, ih]

theorem alookup_eq_none_of_not_mem (k : String) (d : List (String × α))
    (h : k ∉ d.map Prod.fst) : alookup k d = none := by
  induction d with
  | nil => simp
  | cons p rest ih =>
    obtain ⟨k', v'⟩ := p
    simp only [List.map_cons, List.mem_cons] at h
    push_neg at h
    simp [Ne.symm h.1, ih h.2]

theorem not_mem_of_alookup_eq_none (k : String) (d : List (String × α))
    (h : alookup k d = none) : k ∉ d.map Prod.fst := by
  induction d with
  | nil => simp
  | cons p rest ih =>
    obtain ⟨k', v'⟩ := p
    by_cases hk : k' = k
    · simp [hk] at h
    · simp only [alookup_cons, hk, if_false] at h
      simp [Ne.symm hk, ih h]

theorem alookup_aremove_self (k : String) (d : List (String × α))
    (h : (d.map Prod.fst).Nodup) : alookup k (aremove k d) = none := by
  induction d with
  | nil => simp
  | cons p rest ih =>
    obtain ⟨k', v'⟩ := p
    simp only [List.map_cons, List.nodup_cons] at h
    by_cases hk : k' = k
    · subst hk
      simp [alookup_eq_none_of_not_mem k' rest h.1]
    · simp [hk, ih h.2]

theorem alookup_dictMerge_not_mem (k : String) (base ext : List (String × JVal))
    (h : k ∉ ext.map Prod.fst) :
    alookup k (dictMerge base ext) = alookup k base := by
  induction ext generalizing base with
  | nil => rfl
  | cons p rest ih =>
    obtain ⟨k', v'⟩ := p
    simp only [List.map_cons, List.mem_cons] at h
    push_neg at h
    have : dictMerge base ((k', v') :: rest) = dictMerge (aset k' v' base) rest := rfl
    rw [this, ih _ h.2, alookup_aset_ne k k' (Ne.symm h.1)]

theorem alookup_dictMerge_mem (k : String) (v : JVal) (base ext : List (String × JVal))
    (hnd : (ext.map Prod.fst).Nodup) (h : alookup k ext = some v) :
    alookup k (dictMerge base ext) = some v := by
  induction ext generalizing base with
  | nil => simp at h
  | cons p rest ih =>
    obtain ⟨k', v'⟩ := p
    simp only [List.map_cons, List.nodup_cons] at hnd
    have hstep : dictMerge base ((k', v') :: rest) = dictMerge (aset k' v' base) rest := rfl
    by_cases hk : k' = k
    · subst hk
      rw [alookup_cons, if_pos rfl] at h
      injection h with h
      subst h
      rw [hstep, alookup_dictMerge_not_mem k' _ rest hnd.1, alookup_aset_self]
    · simp only [alookup_cons, hk, if_false] at h
      rw [hstep, ih (aset k' v' base) hnd.2 h]

theorem mem_aset_cases (k : String) (v : α) (l : List (String × α))
    (p : String × α) (h : p ∈ aset k v l) : p = (k, v) ∨ p ∈ l := by
  induction l with
  | nil =>
    rw [aset_nil] at h
    exact Or.inl (List.mem_singleton.mp h)
  | cons q rest ih =>
    obtain ⟨k', v'⟩ := q
    by_cases hk : k' = k
    · rw [aset_cons, if_pos hk] at h
      rcases List.mem_cons.mp h with h | h
      · exact Or.inl h
      · exact Or.inr (List.mem_cons_of_mem _ h)
    · rw [aset_cons, if_neg hk] at h
      rcases List.mem_cons.mp h with h | h
      · exact Or.inr (h ▸ List.mem_cons_self _ _)
      · rcases ih h with h | h
        · exact Or.inl h
        · exact Or.inr (List.mem_cons_of_mem _ h)

theorem mem_of_mem_aremove (k : String) (l : List (String × α))
    (p : String × α) (h : p ∈ aremove k l) : p ∈ l := by
  induction l with
  | nil => simp at h
  | cons q rest ih =>
    obtain ⟨k', v'⟩ := q
    by_cases hk : k' = k
    · rw [aremove_cons, if_pos hk] at h
      exact List.mem_cons_of_mem _ h
    · rw [aremove_cons, if_neg hk] at h
      rcases List.mem_cons.mp h with h | h
      · exact h ▸ List.mem_cons_self _ _
      · exact List.mem_cons_of_mem _ (ih h)

theorem mem_of_alookup_eq_some (k : String) (l : List (String × α)) (v : α)
    (h : alookup k l = some v) : (k, v) ∈ l := by
  induction l with
  | nil => simp at h
  | cons q rest ih =>
    obtain ⟨k', v'⟩ := q
    by_cases hk : k' = k
    · rw [alookup_cons, if_pos hk] at h
      injection h with h
      subst hk; subst h
      exact List.mem_cons_self _ _
    · rw [alookup_cons, if_neg hk] at h
      exact List.mem_cons_of_mem _ (ih h)

@[simp] theorem jType_mkInit (loc : JVal) : jType (mkInit loc) = some "call_initiated" := rfl

@[simp] theorem jGet_mkInit_location (loc : JVal) : jGet (mkInit loc) "location" = some loc := rfl

@[simp] theorem jType_mkJoin (cid : String) : jType (mkJoin cid) = some "dispatcher_joined" := rfl

@[simp] theorem jStr_mkJoin_call_id (cid : String) : jStr (mkJoin cid) "call_id" = some cid := rfl

@[simp] theorem jType_incomingCall (cid : String) (loc : JVal) :
    jType (incomingCallPayload cid loc) = some "incoming_call" := rfl

@[simp] theorem jType_dispatcherReady (cid : String) :
    jType (dispatcherReadyPayload cid) = some "dispatcher_ready" := rfl

@[simp] theorem jType_callEnded (cid reason : String) :
    jType (callEndedPayload cid reason) = some "call_ended" := rfl

/-! ## Claims -/

/-- Claim C1 is refuted on the code: a second `dispatcher_joined` for the
same call id from a different dashboard channel reassigns the channel
binding. After dashboard 2 joins call c1 the binding is channel 2; after
dashboard 3 also joins, the binding is channel 3, not 2. -/
theorem C1_counterexample :
    (alookup "c1" (run initialState
        [Event.dashboardConnect 2, Event.dashboardConnect 3,
         Event.signalMsg "c1" "caller" 1 (mkInit locEx),
         Event.dashboardMsg 2 (mkJoin "c1")]).1.active_calls).map
      CallSession.dashboard_ws = some (some 2) ∧
    (alookup "c1" (run initialState
        [Event.dashboardConnect 2, Event.dashboardConnect 3,
         Event.signalMsg "c1" "caller" 1 (mkInit locEx),
         Event.dashboardMsg 2 (mkJoin "c1"),
         Event.dashboardMsg 3 (mkJoin "c1")]).1.active_calls).map
      CallSession.dashboard_ws = some (some 3) ∧
    some (some 3) ≠ (some (some 2) : Option (Option Nat)) :=
  ⟨rfl, rfl, by decide⟩

/-- Claim C1 (amended): the dispatcher channel binding (`dashboard_ws`)
is rebound to the joining channel on every `dispatcher_joined` for an
existing call (last-join-wins), while the triage task is still started
at most once: a join on an already-bound session keeps the existing task
and allocates no new one. -/
theorem C1_join_rebinds_channel (s : ServerState) (cid : String) (ws' w t : Nat)
    (sess : CallSession)
    (h : alookup cid s.active_calls = some sess)
    (_hw : sess.dashboard_ws = some w)
    (ht : sess.gemini_task = some t) :
    alookup cid (handle_dashboard_msg ws' s (mkJoin cid)).1.active_calls =
      some { sess with dashboard_ws := some ws' } ∧
    (handle_dashboard_msg ws' s (mkJoin cid)).1.next_task = s.next_task := by
  simp [handle_dashboard_msg, h, ht, alookup_aset_self]

theorem C1_witness :
    alookup "c1" (handle_dashboard_msg 3 stateBoundEx (mkJoin "c1")).1.active_calls =
      some { sessBoundEx with dashboard_ws := some 3 } ∧
    (handle_dashboard_msg 3 stateBoundEx (mkJoin "c1")).1.next_task =
      stateBoundEx.next_task :=
  C1_join_rebinds_channel stateBoundEx "c1" 3 2 0 sessBoundEx rfl rfl rfl

/-- Claim C2: the triage task is started at most once and only on the
first `dispatcher_joined`: the session created by `call_initiated`
carries no task; a join on a session that already has a task keeps that
task and allocates no new one; a join on a session without a task starts
exactly one. -/
theorem C2_triage_task_started_once (s : ServerState) (cid role : String)
    (ws ws' : Nat) (loc : JVal) (sess : CallSession) (t : Nat) :
    (alookup cid s.active_calls = none →
      (alookup cid (handle_signal_msg cid role ws s (mkInit loc)).1.active_calls).map
        CallSession.gemini_task = some none) ∧
    (alookup cid s.active_calls = some sess → sess.gemini_task = some t →
      alookup cid (handle_dashboard_msg ws' s (mkJoin cid)).1.active_calls =
        some { sess with dashboard_ws := some ws' } ∧
      (handle_dashboard_msg ws' s (mkJoin cid)).1.next_task = s.next_task) ∧
    (alookup cid s.active_calls = some sess → sess.gemini_task = none →
      alookup cid (handle_dashboard_msg ws' s (mkJoin cid)).1.active_calls =
        some { sess with dashboard_ws := some ws', gemini_task := some s.next_task } ∧
      (handle_dashboard_msg ws' s (mkJoin cid)).1.next_task = s.next_task + 1) := by
  refine ⟨?_, ?_, ?_⟩
  · intro h
    have hns : (alookup cid s.active_calls).isSome = false := by rw [h]; rfl
    simp [handle_signal_msg, hns, alookup_aset_self]
  · intro h ht
    simp [handle_dashboard_msg, h, ht, alookup_aset_self]
  · intro h ht
    simp [handle_dashboard_msg, h, ht, alookup_aset_self]

theorem C2_witness :
    (alookup "c2" (handle_signal_msg "c2" "caller" 4 stateEx
        (mkInit locEx)).1.active_calls).map CallSession.gemini_task = some none ∧
    (alookup "c1" (handle_dashboard_msg 9 stateEx (mkJoin "c1")).1.active_calls =
      some { sessEx with dashboard_ws := some 9, gemini_task := some 0 } ∧
     (handle_dashboard_msg 9 stateEx (mkJoin "c1")).1.next_task = 1) :=
  ⟨(C2_triage_task_started_once stateEx "c2" "caller" 4 9 locEx sessEx 0).1 rfl,
   (C2_triage_task_started_once stateEx "c1" "caller" 4 9 locEx sessEx 0).2.2 rfl rfl⟩

/-- Claim C3 is refuted on the code: cleaning up a call with a running
triage task performs a plain unbounded `await` of the task after the
sentinel push and the cancel — there is no timeout-bounded wait and no
abandonment warning in the cleanup path. -/
theorem C3_counterexample :
    (cleanup_call "c1" "ended" stateBoundEx).actions =
      [CleanupAction.popSession, CleanupAction.putSentinel,
       CleanupAction.cancelTask, CleanupAction.awaitTask] ∧
    (¬ ∃ t, CleanupAction.awaitTaskWithTimeout t ∈
        (cleanup_call "c1" "ended" stateBoundEx).actions) ∧
    CleanupAction.logWarning ∉ (cleanup_call "c1" "ended" stateBoundEx).actions := by
  refine ⟨rfl, ?_, by decide⟩
  rintro ⟨t, hmem⟩
  have hacts : (cleanup_call "c1" "ended" stateBoundEx).actions =
      [CleanupAction.popSession, CleanupAction.putSentinel,
       CleanupAction.cancelTask, CleanupAction.awaitTask] := rfl
  rw [hacts] at hmem
  simp at hmem

/-- Claim C3 (amended): after pushing the end-of-stream sentinel and
cancelling the running triage task, cleanup waits for the task to finish
with a plain unbounded await: it performs exactly pop, sentinel push,
cancel, and an untimed await — no timeout and no warning. -/
theorem C3_cleanup_awaits_unbounded (s : ServerState) (cid reason : String)
    (sess : CallSession) (t : Nat)
    (h : alookup cid s.active_calls = some sess)
    (ht : sess.gemini_task = some t)
    (hnotdone : t ∉ s.done_tasks) :
    (cleanup_call cid reason s).actions =
      [CleanupAction.popSession, CleanupAction.putSentinel,
       CleanupAction.cancelTask, CleanupAction.awaitTask] := by
  simp [cleanup_call, h, ht, hnotdone]

theorem C3_witness :
    (cleanup_call "c1" "test" stateBoundEx).actions =
      [CleanupAction.popSession, CleanupAction.putSentinel,
       CleanupAction.cancelTask, CleanupAction.awaitTask] :=
  C3_cleanup_awaits_unbounded stateBoundEx "c1" "test" sessBoundEx 0 rfl rfl (by decide)

/-- Claim C4 is refuted on the code: when the caller's signaling channel
closes while the session is `DispatcherJoined`, the caller's channel is
already closed when cleanup runs, so the guarded send skips it — the
caller receives zero `call_ended` notifications, not one. Scenario:
dashboard 2 connects, caller 1 initiates c1, dispatcher joins, caller
channel closes. -/
theorem C4_counterexample :
    countMsgs (run initialState
      [Event.dashboardConnect 2,
       Event.signalMsg "c1" "caller" 1 (mkInit locEx),
       Event.dashboardMsg 2 (mkJoin "c1"),
       Event.signalClosed "c1" "caller" 1]).2 1 "call_ended" = 0 ∧
    (0 : Nat) ≠ 1 :=
  ⟨rfl, by decide⟩

/-- Claim C4 (amended): if the caller's signaling channel closes while
the session is `DispatcherJoined` (dashboard channel bound and open),
then cleanup sends exactly one `call_ended`, to the dispatcher channel;
the caller channel — being closed — receives none; and the call id is
removed from the registry. -/
theorem C4_caller_close_notifications (s : ServerState) (cid : String)
    (sess : CallSession) (w : Nat)
    (h : alookup cid s.active_calls = some sess)
    (hw : sess.dashboard_ws = some w)
    (hwopen : chanOpen s w = true)
    (hne : sess.caller_ws ≠ w)
    (hnd : (s.active_calls.map Prod.fst).Nodup) :
    (handle_signal_close cid "caller" sess.caller_ws s).2 =
      [Msg.mk w (callEndedPayload cid "ended")] ∧
    countMsgs (handle_signal_close cid "caller" sess.caller_ws s).2
      sess.caller_ws "call_ended" = 0 ∧
    alookup cid (handle_signal_close cid "caller" sess.caller_ws s).1.active_calls =
      none := by
  have hwopen' : chanOpen (closeChannel s sess.caller_ws) w = true := by
    simp only [chanOpen, closeChannel, List.contains_cons] at *
    simp only [Bool.not_eq_true', Bool.or_eq_false_iff] at *
    exact ⟨by simpa using Ne.symm hne, hwopen⟩
  have hcallerclosed : chanOpen (closeChannel s sess.caller_ws) sess.caller_ws = false := by
    simp [chanOpen, closeChannel]
  have hsome : (alookup cid (closeChannel s sess.caller_ws).active_calls).isSome = true := by
    simp [closeChannel, h]
  have hmsgs : (handle_signal_close cid "caller" sess.caller_ws s).2 =
      [Msg.mk w (callEndedPayload cid "ended")] := by
    simp [handle_signal_close, hsome, cleanup_call, closeChannel, h, hw,
      hwopen', hcallerclosed, chanOpen]
    simp only [chanOpen, closeChannel] at hwopen' hcallerclosed
    simp_all
  refine ⟨hmsgs, ?_, ?_⟩
  · rw [hmsgs]
    simp [countMsgs, Ne.symm hne]
  · simp [handle_signal_close, hsome, cleanup_call, closeChannel, h,
      alookup_aremove_self cid s.active_calls hnd]

theorem C4_witness :
    (handle_signal_close "c1" "caller" 1 stateBoundEx).2 =
      [Msg.mk 2 (callEndedPayload "c1" "ended")] ∧
    countMsgs (handle_signal_close "c1" "caller" 1 stateBoundEx).2 1 "call_ended" = 0 ∧
    alookup "c1" (handle_signal_close "c1" "caller" 1 stateBoundEx).1.active_calls = none :=
  C4_caller_close_notifications stateBoundEx "c1" sessBoundEx 2 rfl rfl rfl
    (by decide) (by decide)

/-- Claim C5: when the inference call raises a non-cancellation error of
class `e` and the dashboard channel is bound and open, the triage round
publishes exactly one degraded `triage_update` whose report has severity
0, an empty keyword list and a summary containing the error class name,
and the task loop continues (no termination, no re-raise). -/
theorem C5_inference_error_degraded_report (s : ServerState) (cid e : String)
    (prev : JVal) (w : Nat)
    (hw : dashboard_ws_getter s cid = some w)
    (hopen : chanOpen s w = true) :
    (gemini_round cid s prev (GeminiOutcome.failure e)).msgs =
      [Msg.mk w (triageUpdatePayload cid (errorReport e))] ∧
    jGet (errorReport e) "severity" = some (JVal.num 0) ∧
    jGet (errorReport e) "detected_keywords" = some (JVal.arr []) ∧
    (∃ pre suf, jGet (errorReport e) "situation_summary" =
      some (JVal.str (pre ++ e ++ suf))) ∧
    (gemini_round cid s prev (GeminiOutcome.failure e)).continues = true ∧
    (gemini_round cid s prev (GeminiOutcome.failure e)).reraised = false := by
  refine ⟨?_, rfl, rfl, ⟨"AI analysis error — retrying... (", ")", rfl⟩, ?_, ?_⟩ <;>
    simp [gemini_round, hw, hopen]

theorem C5_witness :
    (gemini_round "c1" stateBoundEx (JVal.str "") (GeminiOutcome.failure "TimeoutError")).msgs =
      [Msg.mk 2 (triageUpdatePayload "c1" (errorReport "TimeoutError"))] ∧
    jGet (errorReport "TimeoutError") "severity" = some (JVal.num 0) ∧
    jGet (errorReport "TimeoutError") "detected_keywords" = some (JVal.arr []) ∧
    (∃ pre suf, jGet (errorReport "TimeoutError") "situation_summary" =
      some (JVal.str (pre ++ "TimeoutError" ++ suf))) ∧
    (gemini_round "c1" stateBoundEx (JVal.str "")
      (GeminiOutcome.failure "TimeoutError")).continues = true ∧
    (gemini_round "c1" stateBoundEx (JVal.str "")
      (GeminiOutcome.failure "TimeoutError")).reraised = false :=
  C5_inference_error_degraded_report stateBoundEx "c1" "TimeoutError" (JVal.str "") 2 rfl rfl

/-- Claim C6: a vitals reading that arrives before its session exists is
buffered (only the most recent pre-registration reading is kept), and
once the session is created and a dispatcher joins, it is delivered to
the dashboard channel exactly once, with every original field intact
under the `type`/`call_id` annotation merge. -/
theorem C6_prereg_vitals_roundtrip (c : String) (v : List (String × JVal)) (loc : JVal)
    (hne : v ≠ [])
    (hnd : (v.map Prod.fst).Nodup)
    (htype : alookup "type" v = none ∨ alookup "type" v = some (JVal.str "vitals")) :
    ((run initialState (eventsC6 c v loc)).2.filter
        (fun m => m.target == 2 && jType m.payload == some "vitals")) =
      [Msg.mk 2 (vitalsPayload c v)] ∧
    (∀ k val, alookup k v = some val → jGet (vitalsPayload c v) k = some val) ∧
    (∀ (s : ServerState) (v₁ v₂ : List (String × JVal)),
      alookup c s.active_calls = none →
      alookup c (handle_vitals_msg c (handle_vitals_msg c s v₁).1 v₂).1.pending_vitals =
        some v₂) := by
  have hEmpty : v.isEmpty = false := by
    cases v with
    | nil => exact absurd rfl hne
    | cons a as => rfl
  have hmerge : alookup "type"
      (dictMerge [("type", JVal.str "vitals"), ("call_id", JVal.str c)] v) =
      some (JVal.str "vitals") := by
    rcases htype with hnone | hvit
    · rw [alookup_dictMerge_not_mem _ _ _ (not_mem_of_alookup_eq_none _ _ hnone)]
      rfl
    · exact alookup_dictMerge_mem _ _ _ _ hnd hvit
  have hJType : jType (vitalsPayload c v) = some "vitals" := by
    simp [jType, jGet, vitalsPayload, hmerge]
  refine ⟨?_, ?_, ?_⟩
  · simp [eventsC6, run, step, initialState, handle_vitals_msg, handle_signal_msg,
      handle_dashboard_msg, chanOpen, hEmpty, alookup_aset_self, hJType]
  · intro k val hk
    exact alookup_dictMerge_mem _ _ _ _ hnd hk
  · intro s v₁ v₂ h0
    simp [handle_vitals_msg, h0, alookup_aset_self]

theorem C6_witness :
    ((run initialState (eventsC6 "c1" vitalsEx locEx)).2.filter
        (fun m => m.target == 2 && jType m.payload == some "vitals")) =
      [Msg.mk 2 (vitalsPayload "c1" vitalsEx)] ∧
    (∀ k val, alookup k vitalsEx = some val →
      jGet (vitalsPayload "c1" vitalsEx) k = some val) ∧
    (∀ (s : ServerState) (v₁ v₂ : List (String × JVal)),
      alookup "c1" s.active_calls = none →
      alookup "c1" (handle_vitals_msg "c1"
        (handle_vitals_msg "c1" s v₁).1 v₂).1.pending_vitals = some v₂) :=
  C6_prereg_vitals_roundtrip "c1" vitalsEx locEx (List.cons_ne_nil _ _)
    (by decide) (Or.inl rfl)

/-- Claim C7: for a call id with an existing session, a second
`call_initiated` with the same id is rejected without mutating the
session: the state and the registry entry are unchanged (so `location`
and `started_at` in particular), and no message is sent. -/
theorem C7_duplicate_call_initiated_rejected (s : ServerState) (cid role : String)
    (ws : Nat) (sess : CallSession) (loc' : JVal)
    (h : alookup cid s.active_calls = some sess) :
    handle_signal_msg cid role ws s (mkInit loc') = (s, []) ∧
    alookup cid (handle_signal_msg cid role ws s (mkInit loc')).1.active_calls = some sess := by
  have hsome : (alookup cid s.active_calls).isSome = true := by rw [h]; rfl
  refine ⟨?_, ?_⟩ <;> simp [handle_signal_msg, hsome, h]

theorem C7_witness :
    handle_signal_msg "c1" "caller" 7 stateEx (mkInit (JVal.num 5)) = (stateEx, []) ∧
    alookup "c1" (handle_signal_msg "c1" "caller" 7 stateEx
      (mkInit (JVal.num 5))).1.active_calls = some sessEx :=
  C7_duplicate_call_initiated_rejected stateEx "c1" "caller" 7 sessEx (JVal.num 5) rfl

/-- Claim C8: with the media queue at its capacity of 500 items, an
enqueue blocks the producer instead of dropping or erroring; once the
consumer takes an item, the blocked enqueue can complete; and whenever
an enqueue completes, the new queue is the old one plus the new item,
so nothing is ever lost. -/
theorem C8_queue_backpressure (s : ServerState) (cid : String) (sess : CallSession)
    (bytes : List Nat) (x : QItem)
    (h : alookup cid s.active_calls = some sess)
    (hfull : sess.audio_queue.length = QUEUE_MAXSIZE) :
    handle_audio_msg cid s (MediaWireMsg.binaryChunk bytes) = MediaStep.blocked ∧
    queuePut sess.audio_queue x = none ∧
    (∀ y rest, queueGet sess.audio_queue = some (y, rest) →
      queuePut rest x = some (rest ++ [x])) ∧
    (∀ q qq : List QItem, queuePut q x = some qq → qq = q ++ [x]) := by
  refine ⟨?_, ?_, ?_, ?_⟩
  · simp [handle_audio_msg, h, queuePut, hfull]
  · simp [queuePut, hfull]
  · intro y rest hg
    cases hq : sess.audio_queue with
    | nil =>
      rw [hq] at hg
      exact Option.noConfusion hg
    | cons a as =>
      rw [hq] at hg
      simp only [queueGet, Option.some.injEq, Prod.mk.injEq] at hg
      obtain ⟨hy, hrest⟩ := hg
      subst hrest
      have hlen : as.length + 1 = QUEUE_MAXSIZE := by
        rw [hq] at hfull; simpa using hfull
      have hlt : as.length < QUEUE_MAXSIZE := by omega
      simp [queuePut, hlt]
  · intro q qq hq
    unfold queuePut at hq
    split at hq
    · injection hq with hq
      exact hq.symm
    · exact Option.noConfusion hq

theorem C8_witness :
    handle_audio_msg "c1" stateFullEx (MediaWireMsg.binaryChunk [0, 1]) =
      MediaStep.blocked ∧
    queuePut sessFullEx.audio_queue QItem.sentinel = none ∧
    (∀ y rest, queueGet sessFullEx.audio_queue = some (y, rest) →
      queuePut rest QItem.sentinel = some (rest ++ [QItem.sentinel])) ∧
    (∀ q qq : List QItem, queuePut q QItem.sentinel = some qq →
      qq = q ++ [QItem.sentinel]) :=
  C8_queue_backpressure stateFullEx "c1" sessFullEx [0, 1] QItem.sentinel rfl
    (by simp only [sessFullEx, List.length_replicate]; rfl)

/-- Claim C9: cleanup is idempotent: cleaning up an id not present in the
registry is a no-op with no notifications, and a second cleanup for the
same id (after a first one) is such a no-op. -/
theorem C9_cleanup_idempotent (s : ServerState) (cid reason : String) :
    (alookup cid s.active_calls = none → cleanup_call cid reason s = ⟨s, [], []⟩) ∧
    ((s.active_calls.map Prod.fst).Nodup →
      cleanup_call cid reason (cleanup_call cid reason s).state =
        ⟨(cleanup_call cid reason s).state, [], []⟩) := by
  constructor
  · intro h
    simp [cleanup_call, h]
  · intro hnd
    cases hs : alookup cid s.active_calls with
    | none =>
      have h1 : cleanup_call cid reason s = ⟨s, [], []⟩ := by simp [cleanup_call, hs]
      rw [h1]
      simp [cleanup_call, hs]
    | some call =>
      have hstate : (cleanup_call cid reason s).state =
          { s with active_calls := aremove cid s.active_calls } := by
        simp [cleanup_call, hs]
      have h2 : alookup cid (aremove cid s.active_calls) = none :=
        alookup_aremove_self cid s.active_calls hnd
      rw [hstate]
      simp [cleanup_call, h2]

theorem C9_witness :
    cleanup_call "c1" "ended" (cleanup_call "c1" "ended" stateEx).state =
      ⟨(cleanup_call "c1" "ended" stateEx).state, [], []⟩ ∧
    cleanup_call "absent" "ended" stateEx = ⟨stateEx, [], []⟩ :=
  ⟨(C9_cleanup_idempotent stateEx "c1" "ended").2 (by decide),
   (C9_cleanup_idempotent stateEx "absent" "ended").1 rfl⟩

theorem dispatcherUnbound_cleanup (cid reason : String) (s : ServerState)
    (hU : dispatcherUnbound s) :
    dispatcherUnbound (cleanup_call cid reason s).state := by
  intro p hp
  unfold cleanup_call at hp
  cases hl : alookup cid s.active_calls with
  | none => rw [hl] at hp; exact hU p hp
  | some call =>
    rw [hl] at hp
    simp only at hp
    exact hU p (mem_of_mem_aremove _ _ _ hp)

theorem dispatcherUnbound_signal_msg (cid role : String) (ws : Nat) (s : ServerState)
    (data : JVal) (hU : dispatcherUnbound s) :
    dispatcherUnbound (handle_signal_msg cid role ws s data).1 := by
  intro p hp
  unfold handle_signal_msg at hp
  by_cases h1 : jType data = some "call_initiated"
  · rw [if_pos h1] at hp
    by_cases h2 : (alookup cid s.active_calls).isSome = true
    · rw [if_pos h2] at hp
      exact hU p hp
    · rw [if_neg h2] at hp
      simp only at hp
      rcases mem_aset_cases _ _ _ _ hp with hpe | h
      · rw [hpe]
      · exact hU p h
  · rw [if_neg h1] at hp
    by_cases h2 : jType data = some "call_ended"
    · rw [if_pos h2] at hp
      exact dispatcherUnbound_cleanup cid "ended" s hU p hp
    · rw [if_neg h2] at hp
      cases hl : alookup cid s.active_calls with
      | none => rw [hl] at hp; exact hU p hp
      | some call =>
        rw [hl] at hp
        simp only at hp
        split at hp
        · split at hp <;> exact hU p hp
        · exact hU p hp

theorem dispatcherUnbound_signal_close (cid role : String) (ws : Nat) (s : ServerState)
    (hU : dispatcherUnbound s) :
    dispatcherUnbound (handle_signal_close cid role ws s).1 := by
  have hUc : dispatcherUnbound (closeChannel s ws) := hU
  intro p hp
  unfold handle_signal_close at hp
  simp only at hp
  split at hp
  · exact dispatcherUnbound_cleanup cid "ended" (closeChannel s ws) hUc p hp
  · exact hUc p hp

theorem dispatcherUnbound_vitals_msg (cid : String) (s : ServerState)
    (vitals : List (String × JVal)) (hU : dispatcherUnbound s) :
    dispatcherUnbound (handle_vitals_msg cid s vitals).1 := by
  intro p hp
  unfold handle_vitals_msg at hp
  cases hl : alookup cid s.active_calls with
  | none => rw [hl] at hp; exact hU p hp
  | some call =>
    have hcall : call.dispatcher_ws = none := hU _ (mem_of_alookup_eq_some _ _ _ hl)
    rw [hl] at hp
    simp only at hp
    have hmem : p ∈ aset cid { call with last_vitals := some vitals } s.active_calls := by
      split at hp
      · split at hp <;> exact hp
      · exact hp
    rcases mem_aset_cases _ _ _ _ hmem with hpe | h
    · rw [hpe]; exact hcall
    · exact hU p h

theorem dispatcherUnbound_dashboard_msg (ws : Nat) (s : ServerState) (data : JVal)
    (hU : dispatcherUnbound s) :
    dispatcherUnbound (handle_dashboard_msg ws s data).1 := by
  intro p hp
  unfold handle_dashboard_msg at hp
  by_cases h1 : jType data = some "dispatcher_joined"
  · rw [if_pos h1] at hp
    cases hc : jStr data "call_id" with
    | none => simp only [hc] at hp; exact hU p hp
    | some cid =>
      simp only [hc] at hp
      cases hl : alookup cid s.active_calls with
      | none => rw [hl] at hp; exact hU p hp
      | some call =>
        have hcall : call.dispatcher_ws = none := hU _ (mem_of_alookup_eq_some _ _ _ hl)
        rw [hl] at hp
        simp only at hp
        by_cases hg : ({ call with dashboard_ws := some ws } : CallSession).gemini_task = none
        · rw [if_pos hg] at hp
          rcases mem_aset_cases _ _ _ _ hp with hpe | h
          · rw [hpe]; exact hcall
          · exact hU p h
        · rw [if_neg hg] at hp
          rcases mem_aset_cases _ _ _ _ hp with hpe | h
          · rw [hpe]; exact hcall
          · exact hU p h
  · rw [if_neg h1] at hp
    by_cases h2 : jType data = some "call_ended"
    · rw [if_pos h2] at hp
      cases hc : jStr data "call_id" with
      | none => simp only [hc] at hp; exact hU p hp
      | some cid =>
        simp only [hc] at hp
        exact dispatcherUnbound_cleanup cid "ended" s hU p hp
    · rw [if_neg h2] at hp
      cases hc : jStr data "call_id" with
      | none => simp only [hc] at hp; exact hU p hp
      | some cid =>
        simp only [hc] at hp
        cases hl : alookup cid s.active_calls with
        | none => rw [hl] at hp; exact hU p hp
        | some call =>
          rw [hl] at hp
          simp only at hp
          split at hp <;> exact hU p hp

/-- Claim C10: the `dispatcher_ws` session field is initialized to `None`
and never assigned afterwards: every event preserves the invariant that
no session has `dispatcher_ws` set; the channel bound by
`dispatcher_joined` (and used for forwarding and publishing) is the
separate `dashboard_ws` field, which the join sets to the joining
channel. -/
theorem C10_dispatcher_ws_never_assigned (s : ServerState) (e : Event)
    (cid : String) (ws : Nat) (sess : CallSession) :
    (dispatcherUnbound s → dispatcherUnbound (step s e).1) ∧
    (alookup cid s.active_calls = some sess →
      (alookup cid (handle_dashboard_msg ws s (mkJoin cid)).1.active_calls).map
        CallSession.dashboard_ws = some (some ws)) := by
  constructor
  · intro hU
    cases e with
    | dashboardConnect w => exact hU
    | dashboardDisconnect w => exact hU
    | signalMsg cid' role w data => exact dispatcherUnbound_signal_msg cid' role w s data hU
    | signalClosed cid' role w => exact dispatcherUnbound_signal_close cid' role w s hU
    | vitalsMsg cid' v => exact dispatcherUnbound_vitals_msg cid' s v hU
    | dashboardMsg w data => exact dispatcherUnbound_dashboard_msg w s data hU
  · intro h
    by_cases hg : sess.gemini_task = none <;>
      simp [handle_dashboard_msg, h, hg, alookup_aset_self]

theorem C10_witness :
    (dispatcherUnbound stateBoundEx →
      dispatcherUnbound (step stateBoundEx (Event.dashboardMsg 3 (mkJoin "c1"))).1) ∧
    (alookup "c1" (handle_dashboard_msg 3 stateBoundEx (mkJoin "c1")).1.active_calls).map
      CallSession.dashboard_ws = some (some 3) :=
  ⟨(C10_dispatcher_ws_never_assigned stateBoundEx (Event.dashboardMsg 3 (mkJoin "c1"))
      "c1" 3 sessBoundEx).1,
   (C10_dispatcher_ws_never_assigned stateBoundEx (Event.dashboardMsg 3 (mkJoin "c1"))
      "c1" 3 sessBoundEx).2 rfl⟩
